import Mathlib

/-!
Verification of the tql compile-time query front-end (error model and late
type verifier) against its specification.

The definitions below are a shallow embedding of the Rust sources:
  - `src/tql_macros/src/error.rs` (diagnostic record, `SqlResult`, `res`),
  - `src/tql_macros/src/type_analyzer.rs` (`analyze_table_types`,
    `same_type`, `check_type`, the per-argument body of
    `LateLintPass::check_expr`, `span_errors`, and
    `EarlyLintPass::exit_lint_attrs`).
Rust `u32` byte positions become `Nat` (their arithmetic here never
overflows), `Vec` becomes `List`, `Result<T, Vec<Error>>` becomes
`Except (List Error) T`, and the rustc session's diagnostic emission
methods become constructors of an emitted-`Diagnostic` list.
The `Type` enum, the placeholder table entry, `find_near` and
`unknown_table_error` live in files that are not part of the sources
(`state.rs`, `string.rs`, `analyzer.rs`); those are modelled from the
specification and marked as such on their doc comments.
-/

namespace Tql

/-- Embedding of `syntax::codemap::Span`: a low byte position, a high byte
position and an expansion id. -/
structure Span where
  lo : Nat
  hi : Nat
  expnId : Nat
deriving DecidableEq, Repr

/-- Embedding of the `NO_EXPANSION` expansion id constant. -/
def NO_EXPANSION : Nat := 0

/-- Embedding of `error.rs`: `ErrorType` is an `Error` type. -/
inductive ErrorType where
  | Error
  | Help
  | Note
  | Warning
deriving DecidableEq, Repr

/-- Embedding of `error.rs`: `Error` is a type that represents an error
with its position. -/
structure Error where
  code : Option String
  kind : ErrorType
  message : String
  position : Span
deriving DecidableEq, Repr

/-- Embedding of `error.rs`: `SqlResult<T>` is a `Result<T, Vec<Error>>`
synonym. -/
def SqlResult (T : Type) : Type := Except (List Error) T

/-- Embedding of `Error::new`. -/
def Error.new (message : String) (position : Span) : Error :=
  { code := none, kind := ErrorType.Error, message := message, position := position }

/-- Embedding of `Error::new_help`. -/
def Error.new_help (message : String) (position : Span) : Error :=
  { code := none, kind := ErrorType.Help, message := message, position := position }

/-- Embedding of `Error::new_note`. -/
def Error.new_note (message : String) (position : Span) : Error :=
  { code := none, kind := ErrorType.Note, message := message, position := position }

/-- Embedding of `Error::new_warning`. -/
def Error.new_warning (message : String) (position : Span) : Error :=
  { code := none, kind := ErrorType.Warning, message := message, position := position }

/-- Embedding of `Error::new_with_code`. -/
def Error.new_with_code (message : String) (position : Span) (code : String) : Error :=
  { code := some code, kind := ErrorType.Error, message := message, position := position }

/-- Embedding of `error.rs`: `res` returns `Err` if there is at least one
element in `errors` (`if !errors.is_empty()`), otherwise `Ok`. -/
def res {T : Type} (result : T) (errors : List Error) : SqlResult T :=
  if !errors.isEmpty then Except.error errors else Except.ok result

/-- Synonym for the host string type, needed inside the `Typ` namespace
where the constructor `Typ.String` shadows the name `String`. -/
abbrev TableName := String

/-- Modelled from the spec: the `Type` enum of the missing `state.rs`.
The spec fixes it as a closed set (named `Typ` because `Type` is taken in
Lean); the uses in `type_analyzer.rs` confirm the `Serial`, `I32`, `I64`,
`String`, `Custom` and `UnsupportedType` constructors. -/
inductive Typ where
  | Serial
  | I32
  | I64
  | F32
  | F64
  | Bool
  | String
  | ByteString
  | DateTime
  | Date
  | Time
  | Optional (t : Typ)
  | ForeignKey (table : TableName)
  | Custom (name : TableName)
  | UnsupportedType (name : TableName)
deriving DecidableEq, Repr

/-- Modelled from the spec: the `Display` rendering of `Typ` lives in the
missing `state.rs`; the exact text is immaterial to every claim (it only
feeds diagnostic messages). -/
def Typ.display : Typ → TableName
  | .Serial => "Serial"
  | .I32 => "i32"
  | .I64 => "i64"
  | .F32 => "f32"
  | .F64 => "f64"
  | .Bool => "bool"
  | .String => "String"
  | .ByteString => "ByteString"
  | .DateTime => "DateTime"
  | .Date => "Date"
  | .Time => "Time"
  | .Optional t => "Option<" ++ t.display ++ ">"
  | .ForeignKey table => "ForeignKey<" ++ table ++ ">"
  | .Custom name => name
  | .UnsupportedType name => name

/-- The fragment of rustc's `TypeVariants` that `same_type` inspects:
`TyInt(TyI32)`, `TyInt(TyI64)`, `TyRef` (with its referent), `TyStr`,
`TyStruct`; `TyOther` stands for every remaining variant, all of which fall
into `same_type`'s final catch-all arm. -/
inductive RustType where
  | TyInt32
  | TyInt64
  | TyStr
  | TyRef (ty : RustType)
  | TyStruct (name : String)
  | TyOther
deriving DecidableEq, Repr

/-- Debug rendering of a `RustType`, standing in for the `{:?}` formatting
of rustc's `TyS` in `check_type`'s message; the exact text is immaterial to
every claim. -/
def RustType.debugStr : RustType → String
  | .TyInt32 => "i32"
  | .TyInt64 => "i64"
  | .TyStr => "str"
  | .TyRef ty => "&" ++ ty.debugStr
  | .TyStruct name => name
  | .TyOther => "_"

/-- Embedding of `type_analyzer.rs`: `same_type` compares the `field_type`
with the `expected_type`, matching on the rustc type's variant. -/
def same_type (field_type : Typ) (expected_type : RustType) : Bool :=
  match expected_type with
  | .TyInt32 => field_type == Typ.I32 || field_type == Typ.Serial
  | .TyInt64 => field_type == Typ.I64
  | .TyRef ty =>
    match ty with
    | .TyStr => field_type == Typ.String
    | _ => false
  | .TyStruct _ => false
  | _ => false

/-- A diagnostic emitted to the rustc session: one constructor per session
method used by `type_analyzer.rs` (`span_err_with_code`, `span_err`,
`fileline_note`, `fileline_help`, `span_warn`, `span_help`). -/
inductive Diagnostic where
  | span_err_with_code (position : Span) (message : String) (code : String)
  | span_err (position : Span) (message : String)
  | fileline_note (position : Span) (message : String)
  | fileline_help (position : Span) (message : String)
  | span_warn (position : Span) (message : String)
  | span_help (position : Span) (message : String)
deriving DecidableEq, Repr

/-- Whether a diagnostic is an error emission (`span_err_with_code` or
`span_err`), as opposed to a note, help or warning. -/
def Diagnostic.isErr : Diagnostic → Bool
  | .span_err_with_code _ _ _ => true
  | .span_err _ _ => true
  | _ => false

/-- Embedding of `type_analyzer.rs`: `check_type` checks that the
`field_type` is the same as the `expected_type` and, if not, emits an
`E0308`-coded error at `position` followed by a note at `note_position`. -/
def check_type (field_type : Typ) (expected_type : RustType)
    (position note_position : Span) : List Diagnostic :=
  if !same_type field_type expected_type then
    [Diagnostic.span_err_with_code position
      ("mismatched types:\n expected `" ++ field_type.display ++
        "`,    found `" ++ expected_type.debugStr ++ "`") "E0308",
     Diagnostic.fileline_note note_position "in this expansion of sql! (defined in tql)"]
  else
    []

/-- Fuel-driven Levenshtein edit distance between two character lists; the
fuel only serves to make the recursion structural, `editDistance` below
always supplies enough. -/
def editDistanceFuel : Nat → List Char → List Char → Nat
  | _, [], ys => ys.length
  | _, x :: xs, [] => (x :: xs).length
  | 0, _, _ => 0
  | fuel + 1, x :: xs, y :: ys =>
    if x = y then editDistanceFuel fuel xs ys
    else 1 + min (editDistanceFuel fuel xs (y :: ys))
      (min (editDistanceFuel fuel (x :: xs) ys) (editDistanceFuel fuel xs ys))

/-- Modelled from the spec: the edit distance underlying the near-match
search of the missing `string.rs`. -/
def editDistance (xs ys : List Char) : Nat :=
  editDistanceFuel (xs.length + ys.length) xs ys

/-- One candidate step of `find_near`: keep the nearer of the running best
match and the candidate `n`, tie-breaking lexicographically, and ignore
candidates beyond the threshold of 3. -/
def find_near_step (name : String) (best : Option String) (n : String) : Option String :=
  let d := editDistance name.data n.data
  if d ≤ 3 then
    match best with
    | none => some n
    | some b =>
      let db := editDistance name.data b.data
      if d < db ∨ (d = db ∧ n < b) then some n else some b
  else best

/-- Modelled from the spec: `find_near` of the missing `string.rs` — the
nearest-name suggestion searches by edit distance with threshold 3 and
picks the lexicographically smallest best match. -/
def find_near (name : String) (names : List String) : Option String :=
  names.foldl (find_near_step name) none

/-- Embedding of `state.rs` as used by `type_analyzer.rs`: a value paired
with its span (rustc's `Spanned`, accessed through `.node` and `.span`). -/
structure Spanned (α : Type) where
  node : α
  span : Span
deriving DecidableEq, Repr

/-- Embedding of `SqlFields` (missing `state.rs`): per the spec, an ordered
mapping from field name to typed, spanned entry; embedded as an association
list in insertion order. -/
abbrev SqlFields : Type := List (String × Spanned Typ)

/-- Lookup of a field by name in an `SqlFields` mapping (`table.get`). -/
def SqlFields.get (fields : SqlFields) (name : String) : Option (Spanned Typ) :=
  (List.find? (fun p => p.1 == name) fields).map Prod.snd

/-- Embedding of `SqlTables` (missing `state.rs`): per the spec, the
process-wide mapping from table name to field set; embedded as an
association list. -/
abbrev SqlTables : Type := List (String × SqlFields)

/-- Lookup of a table by name in an `SqlTables` mapping
(`sql_tables.get`). -/
def SqlTables.get (tables : SqlTables) (name : String) : Option SqlFields :=
  (List.find? (fun p => p.1 == name) tables).map Prod.snd

/-- The diagnostics `unknown_table_error` appends for one unknown table:
the unknown-table error and, when the near-match search over the
registered table names finds a candidate, a help suggestion. -/
def unknown_table_diags (table_name : String) (span : Span)
    (sql_tables : SqlTables) : List Error :=
  Error.new ("`" ++ table_name ++ "` does not name an SQL table") span ::
    (match find_near table_name (sql_tables.map Prod.fst) with
     | some name => [Error.new_help ("did you mean " ++ name ++ "?") span]
     | none => [])

/-- Modelled from the spec: `unknown_table_error` of the missing
`analyzer.rs` — per spec section 4.4 step 1, it records an `UnknownTable`
error for the unresolved name and, if available, a nearest-name suggestion
over the registered table names, pushing onto the accumulated errors. -/
def unknown_table_error (table_name : String) (span : Span)
    (sql_tables : SqlTables) (errors : List Error) : List Error :=
  errors ++ unknown_table_diags table_name span sql_tables

/-- One step of the field loop of `analyze_table_types`: the accumulator
carries the collected errors and the `primary_key_count` of the source
(the count feeds only the commented-out no-primary-key warning). -/
def analyze_step (sql_tables : SqlTables) (acc : List Error × Nat)
    (field : String × Spanned Typ) : List Error × Nat :=
  match field.2.node with
  | Typ.Custom related_table_name =>
    if (SqlTables.get sql_tables related_table_name).isNone then
      (unknown_table_error related_table_name field.2.span sql_tables acc.1, acc.2)
    else acc
  | Typ.UnsupportedType typ =>
    (acc.1 ++ [Error.new_with_code ("Use of unsupported type name `" ++ typ ++ "`")
      field.2.span "E0412"], acc.2)
  | Typ.Serial => (acc.1, acc.2 + 1)
  | _ => acc

/-- The state (errors, primary-key count) after the field loop of
`analyze_table_types`. -/
def analyze_table_types_state (fields : SqlFields) (sql_tables : SqlTables) :
    List Error × Nat :=
  List.foldl (analyze_step sql_tables) ([], 0) fields

/-- Embedding of `type_analyzer.rs`: `analyze_table_types` walks every
field of the table, accumulates the errors (the no-primary-key warning of
the source is commented out, so only the loop contributes) and wraps them
through `res`. -/
def analyze_table_types (fields : SqlFields) (sql_tables : SqlTables) :
    SqlResult Unit :=
  res () (analyze_table_types_state fields sql_tables).1

/-- The errors one field contributes in the loop of
`analyze_table_types`: an unknown-table report for an unresolved `Custom`
type, an `E0412` error for an `UnsupportedType`, nothing otherwise. -/
def field_errors (sql_tables : SqlTables) (field : String × Spanned Typ) :
    List Error :=
  match field.2.node with
  | Typ.Custom related_table_name =>
    if (SqlTables.get sql_tables related_table_name).isNone then
      unknown_table_diags related_table_name field.2.span sql_tables
    else []
  | Typ.UnsupportedType typ =>
    [Error.new_with_code ("Use of unsupported type name `" ++ typ ++ "`")
      field.2.span "E0412"]
  | _ => []

/-- The concatenation of the per-field error contributions, in field
order. -/
def collect_errors (sql_tables : SqlTables) :
    List (String × Spanned Typ) → List Error
  | [] => []
  | f :: fs => field_errors sql_tables f ++ collect_errors sql_tables fs

/-- Modelled from the spec: the placeholder record of the missing
`state.rs` — per spec section 3, each placeholder stores the expected
column name (or the synthetic name `i64`) and the sub-span of the
expression, accessed in `type_analyzer.rs` as `.name`, `.low`, `.high`. -/
structure SqlArg where
  high : Nat
  low : Nat
  name : String
deriving DecidableEq, Repr

/-- Modelled from the spec: the per-query entry of the placeholder table
of the missing `state.rs`, accessed in `type_analyzer.rs` as
`.table_name` and `.arguments`. -/
structure SqlQueryArgs where
  table_name : String
  arguments : List SqlArg
deriving DecidableEq, Repr

/-- Embedding of the per-argument body of `SqlError::check_expr`
(`type_analyzer.rs`): given the resolved target `table`, one recorded
placeholder `field` and the argument's concrete type `typ`, it checks
against `Type::I64` when the recorded name is the synthetic `"i64"`,
otherwise against the column type when the name is a field of the table,
and otherwise emits the attempted-access error plus, when `find_near` over
the names of the recorded `arguments` finds one, a `did you mean` help. -/
def check_argument (table : SqlFields) (table_name : String)
    (arguments : List SqlArg) (field : SqlArg) (typ : RustType)
    (expr_span : Span) : List Diagnostic :=
  let position : Span := ⟨field.low, field.high, NO_EXPANSION⟩
  if field.name == "i64" then
    check_type Typ.I64 typ position expr_span
  else
    match SqlFields.get table field.name with
    | some field_type => check_type field_type.node typ position expr_span
    | none =>
      Diagnostic.span_err position
        ("attempted access of field `" ++ field.name ++ "` on type `" ++
          table_name ++ "`, but no field with that name was found") ::
        (match find_near field.name (arguments.map SqlArg.name) with
         | some name => [Diagnostic.span_help position ("did you mean `" ++ name ++ "`?")]
         | none => [])

/-- Embedding of the argument loop of `SqlError::check_expr`: when the
query's table is registered, every argument type is checked against the
placeholder recorded at the same index (the source writes
`fields.arguments[i]` for the `i`-th type, i.e. walks the two lists in
lockstep); an unregistered table checks nothing. -/
def check_query_args (tables : SqlTables) (fields : SqlQueryArgs)
    (types : List RustType) (expr_span : Span) : List Diagnostic :=
  match SqlTables.get tables fields.table_name with
  | some table =>
    List.foldl
      (fun acc p =>
        acc ++ check_argument table fields.table_name fields.arguments p.2 p.1 expr_span)
      [] (types.zip fields.arguments)
  | none => []

/-- Embedding of `span_errors` (`type_analyzer.rs`): each collected
`Error` is forwarded to the session method selected by its kind (and, for
`Error`-kind items, by the presence of a code). -/
def span_errors (errors : List Error) : List Diagnostic :=
  errors.map fun e =>
    match e.kind with
    | ErrorType.Error =>
      match e.code with
      | some code => Diagnostic.span_err_with_code e.position e.message code
      | none => Diagnostic.span_err e.position e.message
    | ErrorType.Help => Diagnostic.fileline_help e.position e.message
    | ErrorType.Note => Diagnostic.fileline_note e.position e.message
    | ErrorType.Warning => Diagnostic.span_warn e.position e.message

/-- The diagnostics emitted by one full run of the table analysis inside
`SqlAttrError::exit_lint_attrs`: for every registered table whose
`analyze_table_types` fails, the collected errors are forwarded through
`span_errors`. -/
def table_analysis_diags (sql_tables : SqlTables) : List Diagnostic :=
  List.foldl
    (fun acc p =>
      match analyze_table_types p.2 sql_tables with
      | Except.error errors => acc ++ span_errors errors
      | Except.ok _ => acc)
    [] sql_tables

/-- The mutable state of `SqlAttrError::exit_lint_attrs`: the
`static mut analyze_done` flag together with the diagnostics emitted to
the session so far. -/
structure LintState where
  analyze_done : Bool
  emitted : List Diagnostic
deriving DecidableEq, Repr

/-- Embedding of `SqlAttrError::exit_lint_attrs` (`type_analyzer.rs`) as a
state transition: it reads `analyze_done`, runs the table analysis and
emits its diagnostics only when the flag is unset, then sets the flag. -/
def exit_lint_attrs (sql_tables : SqlTables) (s : LintState) : LintState :=
  let done := s.analyze_done
  let s1 :=
    if !done then
      { s with emitted := s.emitted ++ table_analysis_diags sql_tables }
    else s
  { s1 with analyze_done := true }

/-- Concrete field set of a table `Table(id Serial, name String)`, used as
the target of the late-verifier scenarios below. -/
def table_Table_fields : SqlFields :=
  [("id", ⟨Typ.Serial, ⟨50, 52, 0⟩⟩), ("name", ⟨Typ.String, ⟨60, 64, 0⟩⟩)]

/-- Concrete field set of a table declaring an actual column named `i64`. -/
def i64_column_fields : SqlFields :=
  [("i64", ⟨Typ.String, ⟨70, 73, 0⟩⟩)]

/-- Concrete field set with one `String` field and no `Serial` field — the
shape of the `Table` struct of the ui test `sql_table_expr.rs` reduced to
its primary-key-relevant part. -/
def no_serial_fields : SqlFields :=
  [("field1", ⟨Typ.String, ⟨40, 43, 0⟩⟩)]

/-- Concrete field set with one unsupported type and one unresolvable
custom type. -/
def bad_types_fields : SqlFields :=
  [("bad", ⟨Typ.UnsupportedType "Foo", ⟨1, 2, 0⟩⟩),
   ("fkey", ⟨Typ.Custom "Bar", ⟨3, 4, 0⟩⟩)]

/-- `check_type` emits nothing exactly when `same_type` accepts. -/
theorem check_type_eq_nil_iff (field_type : Typ) (expected_type : RustType)
    (position note_position : Span) :
    check_type field_type expected_type position note_position = [] ↔
      same_type field_type expected_type = true := by
  unfold check_type
  cases h : same_type field_type expected_type <;> simp [h]

/-- With enough fuel, the edit distance of a list to itself is zero. -/
theorem editDistanceFuel_self : ∀ (xs : List Char) (fuel : Nat),
    xs.length ≤ fuel → editDistanceFuel fuel xs xs = 0 := by
  intro xs
  induction xs with
  | nil => intro fuel h; cases fuel <;> simp [editDistanceFuel]
  | cons x xs ih =>
    intro fuel h
    cases fuel with
    | zero => exact absurd h (by simp)
    | succ f =>
      simp only [editDistanceFuel, if_pos rfl]
      exact ih f (Nat.le_of_succ_le_succ h)

/-- The edit distance of a list to itself is zero. -/
theorem editDistance_self (xs : List Char) : editDistance xs xs = 0 :=
  editDistanceFuel_self xs (xs.length + xs.length) (Nat.le_add_right _ _)

/-- With enough fuel, an edit distance of zero forces equality. -/
theorem editDistanceFuel_eq_zero : ∀ (fuel : Nat) (xs ys : List Char),
    xs.length + ys.length ≤ fuel → editDistanceFuel fuel xs ys = 0 → xs = ys := by
  intro fuel
  induction fuel with
  | zero =>
    intro xs ys h h0
    cases xs with
    | nil =>
      cases ys with
      | nil => rfl
      | cons y ys => simp [editDistanceFuel] at h0
    | cons x xs => simp at h
  | succ f ih =>
    intro xs ys h h0
    cases xs with
    | nil =>
      cases ys with
      | nil => rfl
      | cons y ys => simp [editDistanceFuel] at h0
    | cons x xs =>
      cases ys with
      | nil => simp [editDistanceFuel] at h0
      | cons y ys =>
        by_cases hxy : x = y
        · subst hxy
          simp only [editDistanceFuel, if_pos rfl] at h0
          have hlen : xs.length + ys.length ≤ f := by
            simp at h; omega
          rw [ih xs ys hlen h0]
        · simp only [editDistanceFuel, if_neg hxy] at h0
          simp at h0

/-- An edit distance of zero forces equality. -/
theorem editDistance_eq_zero (xs ys : List Char) (h : editDistance xs ys = 0) :
    xs = ys :=
  editDistanceFuel_eq_zero (xs.length + ys.length) xs ys (Nat.le_refl _) h

/-- String version of `editDistance_eq_zero`. -/
theorem string_eq_of_editDistance_zero (s t : String)
    (h : editDistance s.data t.data = 0) : s = t := by
  cases s with
  | mk d1 =>
    cases t with
    | mk d2 => exact congrArg String.mk (editDistance_eq_zero d1 d2 h)

/-- A running best match equal to the searched name itself is never
displaced by a later candidate. -/
theorem find_near_step_keep (name n : String) :
    find_near_step name (some name) n = some name := by
  simp only [find_near_step, editDistance_self]
  by_cases hd : editDistance name.data n.data ≤ 3
  · rw [if_pos hd]
    by_cases hc : editDistance name.data n.data < 0 ∨
        (editDistance name.data n.data = 0 ∧ n < name)
    · rw [if_pos hc]
      rcases hc with hlt | ⟨heq, _⟩
      · exact absurd hlt (Nat.not_lt_zero _)
      · rw [string_eq_of_editDistance_zero name n heq]
    · rw [if_neg hc]
  · rw [if_neg hd]

/-- Processing the searched name itself makes it the running best match,
whatever the previous best was. -/
theorem find_near_step_self (name : String) (best : Option String) :
    find_near_step name best name = some name := by
  simp only [find_near_step, editDistance_self]
  cases best with
  | none => rw [if_pos (by omega)]
  | some b =>
    rw [if_pos (by omega)]
    change (if 0 < editDistance name.data b.data ∨
        (0 = editDistance name.data b.data ∧ name < b)
      then some name else some b) = some name
    by_cases hc : 0 < editDistance name.data b.data ∨
        (0 = editDistance name.data b.data ∧ name < b)
    · rw [if_pos hc]
    · rw [if_neg hc]
      push_neg at hc
      have hb0 : editDistance name.data b.data = 0 := by omega
      rw [string_eq_of_editDistance_zero name b hb0]

/-- Folding further candidates never displaces a best match equal to the
searched name. -/
theorem foldl_find_near_const (name : String) : ∀ l : List String,
    List.foldl (find_near_step name) (some name) l = some name := by
  intro l
  induction l with
  | nil => rfl
  | cons a l ih => rw [List.foldl_cons, find_near_step_keep]; exact ih

/-- If the searched name occurs among the candidates, the fold returns it,
whatever the starting best was. -/
theorem foldl_find_near_mem (name : String) : ∀ (l : List String) (best : Option String),
    name ∈ l → List.foldl (find_near_step name) best l = some name := by
  intro l
  induction l with
  | nil => intro best h; cases h
  | cons a l ih =>
    intro best h
    rw [List.foldl_cons]
    rcases List.mem_cons.mp h with rfl | hmem
    · rw [find_near_step_self]; exact foldl_find_near_const name l
    · exact ih _ hmem

/-- The near-match search over a candidate list containing the searched
name itself returns that very name (it has edit distance zero, which
nothing beats). -/
theorem find_near_self (name : String) (names : List String) (h : name ∈ names) :
    find_near name names = some name :=
  foldl_find_near_mem name names none h

/-- The error component of one `analyze_table_types` loop step appends the
field's contribution. -/
theorem analyze_step_fst (sql_tables : SqlTables) (acc : List Error × Nat)
    (field : String × Spanned Typ) :
    (analyze_step sql_tables acc field).1 = acc.1 ++ field_errors sql_tables field := by
  rcases field with ⟨n, node, span⟩
  cases node <;>
    simp only [analyze_step, field_errors, unknown_table_error] <;>
    (try split_ifs) <;>
    simp

/-- The error component of the whole `analyze_table_types` loop is the
accumulated start plus the per-field contributions. -/
theorem foldl_analyze_fst (sql_tables : SqlTables) :
    ∀ (fields : List (String × Spanned Typ)) (acc : List Error × Nat),
    (List.foldl (analyze_step sql_tables) acc fields).1 =
      acc.1 ++ collect_errors sql_tables fields := by
  intro fields
  induction fields with
  | nil => intro acc; simp [collect_errors]
  | cons f fs ih =>
    intro acc
    rw [List.foldl_cons, ih, analyze_step_fst]
    simp [collect_errors, List.append_assoc]

/-- The collected error list of `analyze_table_types` is exactly the
concatenated per-field contributions. -/
theorem analyze_state_fst (fields : SqlFields) (sql_tables : SqlTables) :
    (analyze_table_types_state fields sql_tables).1 =
      collect_errors sql_tables fields := by
  unfold analyze_table_types_state
  rw [foldl_analyze_fst]
  simp

/-- Membership in a field's contribution gives membership in the
concatenation over all fields. -/
theorem mem_collect_errors (sql_tables : SqlTables) (e : Error) :
    ∀ (fields : List (String × Spanned Typ)) (f : String × Spanned Typ),
    f ∈ fields → e ∈ field_errors sql_tables f →
    e ∈ collect_errors sql_tables fields := by
  intro fields
  induction fields with
  | nil => intro f h; cases h
  | cons g fs ih =>
    intro f hmem he
    simp only [collect_errors, List.mem_append]
    rcases List.mem_cons.mp hmem with rfl | hmem2
    · exact Or.inl he
    · exact Or.inr (ih f hmem2 he)

end Tql

namespace Tql

/-- C1 counterexample: a diagnostic list holding a single `Warning`-kind
item contains no `Error`-kind item, yet `res` returns the failure branch,
refuting the claim that `res(v, diags)` succeeds iff no item has kind
`Error`. -/
theorem c1_counterexample :
    (Error.new_warning "No primary key found" ⟨0, 1, 0⟩).kind = ErrorType.Warning ∧
    res (0 : Nat) [Error.new_warning "No primary key found" ⟨0, 1, 0⟩] =
      Except.error [Error.new_warning "No primary key found" ⟨0, 1, 0⟩] := by
  constructor
  · rfl
  · rfl

/-- C1 (amended): `res(v, diags)` returns success iff `diags` is empty;
whenever `diags` is non-empty — irrespective of the kinds of its items,
so also for `Note`, `Help` or `Warning` items — it returns the failure
branch carrying `diags`. -/
theorem c1_res_ok_iff_empty {T : Type} (v : T) (ds : List Error) :
    (res v ds = Except.ok v ↔ ds = []) ∧
    (ds = [] ∨ res v ds = Except.error ds) := by
  cases ds with
  | nil => exact ⟨by simp [res], Or.inl rfl⟩
  | cons e es =>
    refine ⟨?_, Or.inr ?_⟩
    · simp [res]
    · rfl

/-- C8: whenever `res(v, ds)` returns the failure branch, the returned
collection of diagnostics is non-empty. -/
theorem c8_failure_nonempty {T : Type} (v : T) (ds errs : List Error)
    (h : res v ds = Except.error errs) : errs ≠ [] := by
  cases ds with
  | nil => simp [res] at h
  | cons e es =>
    have hr : res v (e :: es) = Except.error (e :: es) := rfl
    rw [hr] at h
    injection h with he
    rw [← he]
    simp

/-- C8 witness: `res` applied to a concrete one-element diagnostic list
returns the failure branch, and `c8_failure_nonempty` yields that the
returned list is non-empty. -/
theorem c8_witness : ([Error.new "x" ⟨0, 1, 0⟩] : List Error) ≠ [] :=
  c8_failure_nonempty (0 : Nat) [Error.new "x" ⟨0, 1, 0⟩] [Error.new "x" ⟨0, 1, 0⟩] rfl

/-- C2: the late type verifier accepts a 32-bit integer argument exactly
when the expected column type is `I32` or `Serial`, a 64-bit integer
argument exactly when it is `I64`, and a reference to a string slice
exactly when it is `String`; and for every combination, `check_type`
emits no mismatch diagnostic exactly when `same_type` accepts. -/
theorem c2_late_verifier_accepts (t : Typ) (pos note_pos : Span) :
    (same_type t RustType.TyInt32 = true ↔ (t = Typ.I32 ∨ t = Typ.Serial)) ∧
    (same_type t RustType.TyInt64 = true ↔ t = Typ.I64) ∧
    (same_type t (RustType.TyRef RustType.TyStr) = true ↔ t = Typ.String) ∧
    (∀ rt : RustType,
      check_type t rt pos note_pos = [] ↔ same_type t rt = true) := by
  refine ⟨?_, ?_, ?_, fun rt => check_type_eq_nil_iff t rt pos note_pos⟩ <;>
    cases t <;> simp [same_type]

/-- C5 counterexample: for a `ForeignKey("RelatedTable")` column, an
argument whose concrete type is the struct `RelatedTable` itself is not
accepted — `same_type` returns `false` and `check_type` emits a mismatch
diagnostic — refuting the claim that struct arguments matching the FK
target are accepted. -/
theorem c5_counterexample :
    same_type (Typ.ForeignKey "RelatedTable") (RustType.TyStruct "RelatedTable") = false ∧
    check_type (Typ.ForeignKey "RelatedTable") (RustType.TyStruct "RelatedTable")
      ⟨0, 1, 0⟩ ⟨2, 3, 0⟩ ≠ [] := by
  constructor
  · rfl
  · decide

/-- C5 (amended): the late type verifier never accepts a struct-typed
argument: for every expected column type — `ForeignKey(T)` included — and
every struct name, `same_type` returns `false` and `check_type` emits a
mismatch diagnostic (foreign-key comparison is unimplemented). -/
theorem c5_struct_always_mismatch (t : Typ) (name : String) (pos note_pos : Span) :
    same_type t (RustType.TyStruct name) = false ∧
    check_type t (RustType.TyStruct name) pos note_pos ≠ [] := by
  refine ⟨rfl, ?_⟩
  simp [check_type, same_type]

/-- C6: whenever the argument's concrete type differs from the expected
column type (`same_type` rejects), `check_type` emits exactly one error
diagnostic, and it carries code `E0308` at the argument's sub-span, plus a
note at the macro call span whose text begins with (hence contains) the
words `in this expansion of sql!`. -/
theorem c6_mismatch_diagnostics (field_type : Typ) (typ : RustType)
    (pos note_pos : Span) (h : same_type field_type typ = false) :
    (∃ msg, (check_type field_type typ pos note_pos).filter Diagnostic.isErr =
      [Diagnostic.span_err_with_code pos msg "E0308"]) ∧
    (∃ s, Diagnostic.fileline_note note_pos ("in this expansion of sql!" ++ s) ∈
      check_type field_type typ pos note_pos) := by
  constructor
  · refine ⟨"mismatched types:\n expected `" ++ field_type.display ++
      "`,    found `" ++ typ.debugStr ++ "`", ?_⟩
    simp [check_type, h, List.filter, Diagnostic.isErr]
  · refine ⟨" (defined in tql)", ?_⟩
    have hs : ("in this expansion of sql!" ++ " (defined in tql)" : String) =
        "in this expansion of sql! (defined in tql)" := rfl
    rw [hs]
    simp [check_type, h]

/-- C6 witness: at the concrete mismatch of a `String` column against an
`i32` argument, `c6_mismatch_diagnostics` yields the single `E0308` error
and the expansion note. -/
theorem c6_witness :
    (∃ msg, (check_type Typ.String RustType.TyInt32 ⟨4, 9, 0⟩ ⟨1, 20, 0⟩).filter
      Diagnostic.isErr = [Diagnostic.span_err_with_code ⟨4, 9, 0⟩ msg "E0308"]) ∧
    (∃ s, Diagnostic.fileline_note ⟨1, 20, 0⟩ ("in this expansion of sql!" ++ s) ∈
      check_type Typ.String RustType.TyInt32 ⟨4, 9, 0⟩ ⟨1, 20, 0⟩) :=
  c6_mismatch_diagnostics Typ.String RustType.TyInt32 ⟨4, 9, 0⟩ ⟨1, 20, 0⟩ rfl

/-- C3 counterexample: for the placeholder `test` missing from the table
`Table(id Serial, name String)`, the late verifier emits the
attempted-access error and a help reading `did you mean test?` — but the
near-match search over the target table's field names finds nothing
within the threshold, so the emitted suggestion cannot come from that
search (it comes from the recorded argument names), refuting the claim. -/
theorem c3_counterexample :
    check_argument table_Table_fields "Table" [⟨14, 10, "test"⟩] ⟨14, 10, "test"⟩
        RustType.TyInt32 ⟨0, 40, 0⟩ =
      [Diagnostic.span_err ⟨10, 14, NO_EXPANSION⟩
        "attempted access of field `test` on type `Table`, but no field with that name was found",
       Diagnostic.span_help ⟨10, 14, NO_EXPANSION⟩ "did you mean `test`?"] ∧
    find_near "test" (table_Table_fields.map Prod.fst) = none := by
  constructor <;> decide

/-- C3 (amended): for a placeholder whose recorded column name is not a
field of the target table (and is not `i64`), the late verifier emits the
attempted-access error at the placeholder's span, plus a `did you mean`
help whose suggestion comes from the near-match search over the recorded
placeholder argument names — a list that contains the missing name
itself, so the help always suggests exactly that missing name. -/
theorem c3_help_suggests_missing_name (table : SqlFields) (table_name : String)
    (arguments : List SqlArg) (field : SqlArg) (typ : RustType) (expr_span : Span)
    (h1 : field ∈ arguments) (h2 : SqlFields.get table field.name = none)
    (h3 : field.name ≠ "i64") :
    check_argument table table_name arguments field typ expr_span =
      [Diagnostic.span_err ⟨field.low, field.high, NO_EXPANSION⟩
        ("attempted access of field `" ++ field.name ++ "` on type `" ++ table_name ++
          "`, but no field with that name was found"),
       Diagnostic.span_help ⟨field.low, field.high, NO_EXPANSION⟩
        ("did you mean `" ++ field.name ++ "`?")] := by
  have hf : find_near field.name (arguments.map SqlArg.name) = some field.name :=
    find_near_self field.name _ (List.mem_map_of_mem SqlArg.name h1)
  have hb : (field.name == "i64") = false := by
    simpa using h3
  simp [check_argument, hb, h2, hf]

/-- C3 witness: `c3_help_suggests_missing_name` applied to the concrete
missing placeholder `test` on `Table(id Serial, name String)`. -/
theorem c3_witness :
    check_argument table_Table_fields "Table" [⟨14, 10, "test"⟩] ⟨14, 10, "test"⟩
        RustType.TyInt32 ⟨0, 40, 0⟩ =
      [Diagnostic.span_err ⟨10, 14, NO_EXPANSION⟩
        ("attempted access of field `" ++ "test" ++ "` on type `" ++ "Table" ++
          "`, but no field with that name was found"),
       Diagnostic.span_help ⟨10, 14, NO_EXPANSION⟩
        ("did you mean `" ++ "test" ++ "`?")] :=
  c3_help_suggests_missing_name table_Table_fields "Table" [⟨14, 10, "test"⟩]
    ⟨14, 10, "test"⟩ RustType.TyInt32 ⟨0, 40, 0⟩ (by decide) (by decide) (by decide)

/-- C4: the no-primary-key warning is commented out in the source — on a
table with only a `String` field and no `Serial` field, the table-type
analysis succeeds and the lint pass over a registry holding that table
emits no diagnostic at all, in particular no `No primary key found`
warning (the ui test `sql_table_expr.rs` expects one). -/
theorem c4_no_primary_key_warning :
    analyze_table_types no_serial_fields [("Table", no_serial_fields)] =
      Except.ok () ∧
    table_analysis_diags [("Table", no_serial_fields)] = [] := by
  constructor <;> rfl

/-- C7: the table-type analysis visits every field and collects every
diagnostic: each `UnsupportedType` field contributes its `E0412` error
naming the type, each unregistered `Custom` field contributes its
unknown-table error, all of them reach the collected list, and when that
list is non-empty `analyze_table_types` returns it whole. -/
theorem c7_collects_all_diagnostics (fields : SqlFields) (sql_tables : SqlTables)
    (name : String) (f : Spanned Typ) (hmem : (name, f) ∈ fields) :
    (∀ t, f.node = Typ.UnsupportedType t →
      Error.new_with_code ("Use of unsupported type name `" ++ t ++ "`") f.span "E0412" ∈
        (analyze_table_types_state fields sql_tables).1) ∧
    (∀ t, f.node = Typ.Custom t → SqlTables.get sql_tables t = none →
      Error.new ("`" ++ t ++ "` does not name an SQL table") f.span ∈
        (analyze_table_types_state fields sql_tables).1) ∧
    ((analyze_table_types_state fields sql_tables).1 ≠ [] →
      analyze_table_types fields sql_tables =
        Except.error (analyze_table_types_state fields sql_tables).1) := by
  refine ⟨?_, ?_, ?_⟩
  · intro t ht
    rw [analyze_state_fst]
    apply mem_collect_errors sql_tables _ fields (name, f) hmem
    simp [field_errors, ht]
  · intro t ht hnone
    rw [analyze_state_fst]
    apply mem_collect_errors sql_tables _ fields (name, f) hmem
    simp [field_errors, ht, hnone, unknown_table_diags]
  · intro hne
    unfold analyze_table_types res
    cases hl : (analyze_table_types_state fields sql_tables).1 with
    | nil => exact absurd hl hne
    | cons a l => simp [hl]

/-- C7 witness: on a concrete table holding one `UnsupportedType "Foo"`
field and one `Custom "Bar"` field against an empty registry,
`c7_collects_all_diagnostics` puts both the `E0412` error and the
unknown-table error in the collected list. -/
theorem c7_witness :
    Error.new_with_code ("Use of unsupported type name `" ++ "Foo" ++ "`")
        ⟨1, 2, 0⟩ "E0412" ∈ (analyze_table_types_state bad_types_fields []).1 ∧
    Error.new ("`" ++ "Bar" ++ "` does not name an SQL table") ⟨3, 4, 0⟩ ∈
      (analyze_table_types_state bad_types_fields []).1 :=
  ⟨(c7_collects_all_diagnostics bad_types_fields [] "bad"
      ⟨Typ.UnsupportedType "Foo", ⟨1, 2, 0⟩⟩ (by decide)).1 "Foo" rfl,
   (c7_collects_all_diagnostics bad_types_fields [] "fkey"
      ⟨Typ.Custom "Bar", ⟨3, 4, 0⟩⟩ (by decide)).2.1 "Bar" rfl rfl⟩

/-- C9: when the recorded placeholder name is the synthetic `i64`, the
late verifier checks the argument against `Type::I64` without consulting
the table's field set — the result is the same for every table, including
one that declares an actual column named `i64`. -/
theorem c9_i64_priority (table : SqlFields) (table_name : String)
    (arguments : List SqlArg) (field : SqlArg) (typ : RustType) (expr_span : Span)
    (h : field.name = "i64") :
    check_argument table table_name arguments field typ expr_span =
      check_type Typ.I64 typ ⟨field.low, field.high, NO_EXPANSION⟩ expr_span := by
  simp [check_argument, h]

/-- C9 witness: `c9_i64_priority` at a table that declares a real column
named `i64` of type `String`; a 64-bit argument is still checked against
`Type::I64` (and accepted), ignoring the column's `String` type. -/
theorem c9_witness :
    check_argument i64_column_fields "Table" [⟨14, 10, "i64"⟩] ⟨14, 10, "i64"⟩
        RustType.TyInt64 ⟨0, 40, 0⟩ =
      check_type Typ.I64 RustType.TyInt64 ⟨10, 14, NO_EXPANSION⟩ ⟨0, 40, 0⟩ :=
  c9_i64_priority i64_column_fields "Table" [⟨14, 10, "i64"⟩] ⟨14, 10, "i64"⟩
    RustType.TyInt64 ⟨0, 40, 0⟩ rfl

/-- C10: across any number of `exit_lint_attrs` invocations in one
process, the table analysis runs at most once: after one or more
invocations from the initial state, the flag is set and the emitted
diagnostics are exactly one analysis round — later invocations change
nothing. -/
theorem c10_analysis_at_most_once (sql_tables : SqlTables) (k : Nat) :
    (exit_lint_attrs sql_tables)^[k + 1] ⟨false, []⟩ =
      (⟨true, table_analysis_diags sql_tables⟩ : LintState) := by
  induction k with
  | zero => simp [exit_lint_attrs]
  | succ n ih =>
    rw [Function.iterate_succ_apply', ih]
    simp [exit_lint_attrs]

end Tql
